import Mathlib

/-!
Verification of the element-validation core of `ui-manual-validator`
(`src/validators/element_validator.py`), as a shallow embedding.

Modelling conventions:
- Python dictionaries used as string-keyed maps become association lists
  (`List (String × _)`) with `List.lookup` (first match) for `d.get(k)` /
  `d[k]` and membership tests; `d[k] = d.get(k, 0) + 1` becomes `dictIncr`.
- A field that a record may lack is an `Option` field (`none` = key absent);
  each rule reads it through `Option.getD` with exactly the default the
  Python `.get(key, default)` call supplies.
- Geometry values are modelled as `Int` (the rules only compare them with
  the integer constants `44` and `-100`).
- A Python rule function that may raise is modelled as
  `ElementRecord → Option (List ValidationIssue)`, `none` standing for a
  raised exception, which the engine loop catches (`try/except` at
  `validate_element` lines 97-102).  The nine built-in rules never raise on
  well-typed records, hence each is wrapped in `some`.
- `pass_rate` is modelled with exact rationals; `validation_time` (wall
  clock) is not modelled.
-/

namespace UIValidator

/-- Severity levels for validation issues (Python enum `ValidationSeverity`). -/
inductive ValidationSeverity where
  | critical
  | high
  | medium
  | low
  | info
deriving DecidableEq

/-- The `.value` string of each severity member. -/
def ValidationSeverity.value : ValidationSeverity → String
  | .critical => "critical"
  | .high => "high"
  | .medium => "medium"
  | .low => "low"
  | .info => "info"

/-- Categories of validation checks (Python enum `ValidationCategory`). -/
inductive ValidationCategory where
  | accessibility
  | functionality
  | visual
  | performance
  | usability
  | compliance
deriving DecidableEq

/-- The `.value` string of each category member. -/
def ValidationCategory.value : ValidationCategory → String
  | .accessibility => "accessibility"
  | .functionality => "functionality"
  | .visual => "visual"
  | .performance => "performance"
  | .usability => "usability"
  | .compliance => "compliance"

/-- A validation issue (dataclass `ValidationIssue`); the optional
`element_info` payload is never populated by any built-in rule and is
omitted. -/
structure ValidationIssue where
  element_selector : String
  issue_type : String
  severity : ValidationSeverity
  category : ValidationCategory
  message : String
  description : String
  recommendation : String
  wcag_guideline : Option String := none
deriving DecidableEq

/-- The `bounding_rect` sub-dictionary of an element record; every key may
be absent. -/
structure BoundingRect where
  x : Option Int := none
  y : Option Int := none
  width : Option Int := none
  height : Option Int := none
deriving DecidableEq

/-- The `element_info` input dictionary.  Every key may be absent (`none`);
the rules recover the defaults via `Option.getD`, mirroring the Python
`element_info.get(key, default)` calls. -/
structure ElementRecord where
  tag_name : Option String := none
  attributes : Option (List (String × String)) := none
  text_content : Option String := none
  css_selector : Option String := none
  bounding_rect : Option BoundingRect := none
  is_visible : Option Bool := none
deriving DecidableEq

/-- Python `str.lower` (the tags and texts compared are ASCII). -/
def strToLower (s : String) : String := ⟨s.data.map Char.toLower⟩

/-- Python `str.strip`: drop whitespace from both ends. -/
def strTrim (s : String) : String :=
  ⟨((s.data.dropWhile Char.isWhitespace).reverse.dropWhile Char.isWhitespace).reverse⟩

/-- Whether the first character list is an initial segment of the second. -/
def charsLeadWith : List Char → List Char → Bool
  | [], _ => true
  | p :: ps, cs =>
    match cs with
    | [] => false
    | c :: rest => p == c && charsLeadWith ps rest

/-- Python `str.startswith`. -/
def strStartsWith (s p : String) : Bool := charsLeadWith p.data s.data

/-- Whether the first character list occurs contiguously in the second. -/
def charsOccur (needle : List Char) : List Char → Bool
  | [] => charsLeadWith needle []
  | c :: rest => charsLeadWith needle (c :: rest) || charsOccur needle rest

/-- Python substring test `sub in s`. -/
def strContainsSub (s sub : String) : Bool := charsOccur sub.data s.data

/-- `_check_accessibility_basic`: missing alt text, missing input id,
button with no accessible name. -/
def check_accessibility_basic (e : ElementRecord) : List ValidationIssue :=
  let tag_name := strToLower (e.tag_name.getD "")
  let attributes := e.attributes.getD []
  let selector := e.css_selector.getD "unknown"
  (if tag_name = "img" ∧
      (attributes.lookup "alt" = none ∨ strTrim ((attributes.lookup "alt").getD "") = "") then
    [{ element_selector := selector
       issue_type := "missing_alt_text"
       severity := .high
       category := .accessibility
       message := "Image missing alt text"
       description := "Image elements must have alt text for screen readers"
       recommendation := "Add descriptive alt text to the image"
       wcag_guideline := some "WCAG 2.1 - 1.1.1 Non-text Content" }]
  else []) ++
  (if tag_name = "input" ∧
      attributes.lookup "type" ∉ ([some "submit", some "button", some "hidden"] : List (Option String)) ∧
      attributes.lookup "id" = none then
    [{ element_selector := selector
       issue_type := "missing_input_id"
       severity := .medium
       category := .accessibility
       message := "Form input missing ID for label association"
       description := "Input elements should have IDs for proper label association"
       recommendation := "Add an id attribute to enable label association"
       wcag_guideline := some "WCAG 2.1 - 3.3.2 Labels or Instructions" }]
  else []) ++
  (if (tag_name = "button" ∨ (tag_name = "input" ∧ attributes.lookup "type" = some "button")) ∧
      strTrim (e.text_content.getD "") = "" ∧
      attributes.lookup "aria-label" = none ∧ attributes.lookup "title" = none then
    [{ element_selector := selector
       issue_type := "button_no_accessible_name"
       severity := .high
       category := .accessibility
       message := "Button has no accessible name"
       description := "Buttons must have accessible names for screen readers"
       recommendation := "Add text content, aria-label, or title attribute"
       wcag_guideline := some "WCAG 2.1 - 4.1.2 Name, Role, Value" }]
  else [])

/-- `_check_accessibility_advanced`: empty heading, empty aria attributes. -/
def check_accessibility_advanced (e : ElementRecord) : List ValidationIssue :=
  let attributes := e.attributes.getD []
  let selector := e.css_selector.getD "unknown"
  let tag_name := strToLower (e.tag_name.getD "")
  (if tag_name ∈ ["h1", "h2", "h3", "h4", "h5", "h6"] ∧
      strTrim (e.text_content.getD "") = "" then
    [{ element_selector := selector
       issue_type := "empty_heading"
       severity := .medium
       category := .accessibility
       message := "Heading element is empty"
       description := "Heading elements should contain descriptive text"
       recommendation := "Add meaningful text content to the heading"
       wcag_guideline := some "WCAG 2.1 - 2.4.6 Headings and Labels" }]
  else []) ++
  attributes.filterMap (fun p =>
    if strStartsWith p.1 "aria-" = true ∧ strTrim p.2 = "" then
      some { element_selector := selector
             issue_type := "empty_aria_attribute"
             severity := .medium
             category := .accessibility
             message := "Empty ARIA attribute: " ++ p.1
             description := "ARIA attributes should have meaningful values"
             recommendation := "Provide a value for " ++ p.1 ++ " or remove the attribute"
             wcag_guideline := some "WCAG 2.1 - 4.1.2 Name, Role, Value" }
    else none)

/-- `_check_form_elements`: missing aria-required, email input without
pattern validation. -/
def check_form_elements (e : ElementRecord) : List ValidationIssue :=
  let tag_name := strToLower (e.tag_name.getD "")
  let attributes := e.attributes.getD []
  let selector := e.css_selector.getD "unknown"
  if tag_name ∈ ["input", "textarea", "select"] then
    (if (attributes.lookup "required").isSome = true ∧
        attributes.lookup "aria-required" = none then
      [{ element_selector := selector
         issue_type := "missing_aria_required"
         severity := .low
         category := .accessibility
         message := "Required field missing aria-required attribute"
         description := "Required form fields should have aria-required set to true"
         recommendation := "Add aria-required to the element"
         wcag_guideline := some "WCAG 2.1 - 3.3.2 Labels or Instructions" }]
    else []) ++
    (if tag_name = "input" ∧ (attributes.lookup "type").getD "text" = "email" ∧
        attributes.lookup "pattern" = none then
      [{ element_selector := selector
         issue_type := "email_input_no_validation"
         severity := .low
         category := .functionality
         message := "Email input without pattern validation"
         description := "Email inputs should have pattern validation for better UX"
         recommendation := "Consider adding a pattern attribute for email validation" }]
    else [])
  else []

/-- `_check_links`: empty link, generic link text, external link without
security attributes. -/
def check_links (e : ElementRecord) : List ValidationIssue :=
  let tag_name := strToLower (e.tag_name.getD "")
  let attributes := e.attributes.getD []
  let selector := e.css_selector.getD "unknown"
  if tag_name = "a" then
    let href := (attributes.lookup "href").getD ""
    let text_content := strTrim (e.text_content.getD "")
    (if text_content = "" ∧ attributes.lookup "aria-label" = none then
      [{ element_selector := selector
         issue_type := "empty_link"
         severity := .high
         category := .accessibility
         message := "Link has no accessible text"
         description := "Links must have accessible text for screen readers"
         recommendation := "Add text content or aria-label to the link"
         wcag_guideline := some "WCAG 2.1 - 2.4.4 Link Purpose" }]
    else []) ++
    (if strToLower text_content ∈ ["click here", "read more", "more", "link", "here"] then
      [{ element_selector := selector
         issue_type := "generic_link_text"
         severity := .medium
         category := .usability
         message := "Link uses generic text"
         description := "Link text should be descriptive of the destination"
         recommendation := "Use more descriptive link text"
         wcag_guideline := some "WCAG 2.1 - 2.4.4 Link Purpose" }]
    else []) ++
    (if strStartsWith href "http" = true ∧ attributes.lookup "target" = some "_blank" ∧
        (attributes.lookup "rel" = none ∨
          strContainsSub ((attributes.lookup "rel").getD "") "noopener" = false) then
      [{ element_selector := selector
         issue_type := "external_link_security"
         severity := .medium
         category := .compliance
         message := "External link missing security attributes"
         description := "External links should include noopener in rel for security"
         recommendation := "Add noopener noreferrer rel values to external links" }]
    else [])
  else []

/-- `_check_images`: missing loading attribute, missing dimensions. -/
def check_images (e : ElementRecord) : List ValidationIssue :=
  let tag_name := strToLower (e.tag_name.getD "")
  let attributes := e.attributes.getD []
  let selector := e.css_selector.getD "unknown"
  if tag_name = "img" then
    (if attributes.lookup "loading" = none then
      [{ element_selector := selector
         issue_type := "missing_loading_attribute"
         severity := .low
         category := .performance
         message := "Image missing loading attribute"
         description := "Images should use lazy loading for better performance"
         recommendation := "Add lazy loading for non-critical images" }]
    else []) ++
    (if attributes.lookup "width" = none ∨ attributes.lookup "height" = none then
      [{ element_selector := selector
         issue_type := "missing_image_dimensions"
         severity := .low
         category := .performance
         message := "Image missing width/height attributes"
         description := "Images should have width and height to prevent layout shift"
         recommendation := "Add width and height attributes to prevent CLS" }]
    else [])
  else []

/-- `_check_interactive_elements`: minimum touch-target size.  Note the
threshold is the hard-coded local `min_size = 44`; the configuration value
`minimum_touch_target` is never consulted by the source. -/
def check_interactive_elements (e : ElementRecord) : List ValidationIssue :=
  let tag_name := strToLower (e.tag_name.getD "")
  let bounding_rect := e.bounding_rect.getD {}
  let selector := e.css_selector.getD "unknown"
  if tag_name ∈ ["button", "a", "input", "select", "textarea"] then
    let width := bounding_rect.width.getD 0
    let height := bounding_rect.height.getD 0
    let min_size : Int := 44
    if width < min_size ∨ height < min_size then
      [{ element_selector := selector
         issue_type := "small_touch_target"
         severity := .medium
         category := .usability
         message := "Touch target too small (" ++ toString width ++ "x" ++ toString height ++ "px)"
         description := "Interactive elements should be at least 44x44px for accessibility"
         recommendation := "Increase the size of the interactive element"
         wcag_guideline := some "WCAG 2.1 - 2.5.5 Target Size" }]
    else []
  else []

/-- `_check_text_content`: long text without line breaks. -/
def check_text_content (e : ElementRecord) : List ValidationIssue :=
  let text_content := e.text_content.getD ""
  let selector := e.css_selector.getD "unknown"
  if 500 < text_content.length ∧ text_content.toList.contains '\n' = false then
    [{ element_selector := selector
       issue_type := "long_text_no_breaks"
       severity := .low
       category := .usability
       message := "Very long text without line breaks"
       description := "Long text should be broken into paragraphs for readability"
       recommendation := "Consider breaking long text into smaller sections" }]
  else []

/-- `_check_visual_layout`: element positioned outside the viewport. -/
def check_visual_layout (e : ElementRecord) : List ValidationIssue :=
  let bounding_rect := e.bounding_rect.getD {}
  let selector := e.css_selector.getD "unknown"
  let is_visible := e.is_visible.getD true
  let x := bounding_rect.x.getD 0
  let y := bounding_rect.y.getD 0
  if is_visible = true ∧ (x < -100 ∨ y < -100) then
    [{ element_selector := selector
       issue_type := "element_outside_viewport"
       severity := .low
       category := .visual
       message := "Element positioned outside typical viewport"
       description := "Element may not be visible to users"
       recommendation := "Check element positioning and layout" }]
  else []

/-- `_check_performance_indicators`: inline styles. -/
def check_performance_indicators (e : ElementRecord) : List ValidationIssue :=
  let attributes := (e.attributes.getD [])
  let selector := e.css_selector.getD "unknown"
  if (attributes.lookup "style").isSome = true ∧
      strTrim ((attributes.lookup "style").getD "") ≠ "" then
    [{ element_selector := selector
       issue_type := "inline_styles"
       severity := .low
       category := .performance
       message := "Element uses inline styles"
       description := "Inline styles can impact performance and maintainability"
       recommendation := "Consider moving styles to CSS files" }]
  else []

/-- A rule as stored in `self.validation_rules`: a function from one element
record to issues, where `none` models the rule raising an exception. -/
def Rule : Type := ElementRecord → Option (List ValidationIssue)

/-- `_load_validation_rules`: the registry, in the source's insertion order.
It reads nothing from the configuration.  All built-in rules are total
(never raise), hence wrapped in `some`. -/
def loadValidationRules : List (String × Rule) :=
  [("accessibility_basic", fun e => some (check_accessibility_basic e)),
   ("accessibility_advanced", fun e => some (check_accessibility_advanced e)),
   ("form_validation", fun e => some (check_form_elements e)),
   ("link_validation", fun e => some (check_links e)),
   ("image_validation", fun e => some (check_images e)),
   ("interactive_elements", fun e => some (check_interactive_elements e)),
   ("text_content", fun e => some (check_text_content e)),
   ("visual_layout", fun e => some (check_visual_layout e)),
   ("performance", fun e => some (check_performance_indicators e))]

/-- The rule-evaluation loop of `validate_element` (lines 95-102): for each
requested name, unregistered names are skipped, a raising rule (`none`) is
caught and skipped, a succeeding rule extends `issues` and appends the name
to `checks_performed`. -/
def runChecks (rules : List (String × Rule)) (checks : List String)
    (e : ElementRecord) : List ValidationIssue × List String :=
  match checks with
  | [] => ([], [])
  | name :: rest =>
    match rules.lookup name with
    | none => runChecks rules rest e
    | some rule =>
      match rule e with
      | none => runChecks rules rest e
      | some check_issues =>
        match runChecks rules rest e with
        | (restIssues, restPerformed) =>
          (check_issues ++ restIssues, name :: restPerformed)

/-- The result dataclass `ValidationResult`; the three entries of the
`metadata` dictionary become three fields; `validation_time` (wall clock)
is not modelled. -/
structure ValidationResult where
  element_selector : String
  passed : Bool
  issues : List ValidationIssue
  checks_performed : List String
  metadata_tag : Option String
  metadata_id : Option String
  metadata_class : Option String
deriving DecidableEq

/-- `validate_element`, parameterised by the registry `self.validation_rules`
(the constructor always sets it to `loadValidationRules`).  `checks = none`
models the `checks=None` default, replaced by the registry's key list. -/
def validateElementWith (rules : List (String × Rule)) (e : ElementRecord)
    (checks : Option (List String)) : ValidationResult :=
  let checksList := checks.getD (rules.map (fun p => p.1))
  let res := runChecks rules checksList e
  let issues := res.1
  let passed := (issues.filter (fun i =>
    [ValidationSeverity.critical, ValidationSeverity.high].contains i.severity)).length == 0
  { element_selector := e.css_selector.getD "unknown"
    passed := passed
    issues := issues
    checks_performed := res.2
    metadata_tag := e.tag_name
    metadata_id := (e.attributes.getD []).lookup "id"
    metadata_class := (e.attributes.getD []).lookup "class" }

/-- The configuration dictionary; field defaults are `_get_default_config`. -/
structure Config where
  accessibility_level : String := "AA"
  check_performance : Bool := true
  check_usability : Bool := true
  check_visual : Bool := true
  minimum_touch_target : Int := 44
  check_security : Bool := true
deriving DecidableEq

/-- `_get_default_config`. -/
def getDefaultConfig : Config := {}

/-- The `ElementValidator` object state after `__init__`. -/
structure ElementValidator where
  config : Config
  validation_rules : List (String × Rule)

/-- `ElementValidator.__init__`: stores the configuration (or the default)
and builds the rule registry; `_load_validation_rules` ignores the
configuration entirely, exactly as in the source. -/
def ElementValidator.init (config : Option Config) : ElementValidator :=
  { config := config.getD getDefaultConfig
    validation_rules := loadValidationRules }

/-- Method `validate_element` on a constructed validator. -/
def ElementValidator.validate_element (v : ElementValidator) (e : ElementRecord)
    (checks : Option (List String)) : ValidationResult :=
  validateElementWith v.validation_rules e checks

/-- Python `d[k] = d.get(k, 0) + 1` on a string-counter dictionary: update
in place when the key exists, append it otherwise (dict insertion order). -/
def dictIncr (d : List (String × Nat)) (k : String) : List (String × Nat) :=
  match d with
  | [] => [(k, 1)]
  | (k₂, v) :: rest => if k₂ = k then (k₂, v + 1) :: rest else (k₂, v) :: dictIncr rest k

/-- Sum of the values of a counter dictionary. -/
def sumValues (d : List (String × Nat)) : Nat :=
  (d.map (fun p => p.2)).sum

/-- The summary dictionary returned by `get_validation_summary`. -/
structure ValidationSummary where
  total_elements : Nat
  passed_elements : Nat
  failed_elements : Nat
  pass_rate : ℚ
  total_issues : Nat
  issues_by_severity : List (String × Nat)
  issues_by_category : List (String × Nat)
  critical_issues : Nat
  high_issues : Nat

/-- `get_validation_summary`.  The Python single loop fills the two
independent counter dictionaries; two folds over the same issue list are
its direct translation. -/
def get_validation_summary (results : List ValidationResult) : ValidationSummary :=
  let total_elements := results.length
  let passed_elements := (results.filter (fun r => r.passed)).length
  let failed_elements := total_elements - passed_elements
  let all_issues := results.foldl (fun acc r => acc ++ r.issues) []
  let issues_by_severity :=
    all_issues.foldl (fun d i => dictIncr d i.severity.value) []
  let issues_by_category :=
    all_issues.foldl (fun d i => dictIncr d i.category.value) []
  { total_elements := total_elements
    passed_elements := passed_elements
    failed_elements := failed_elements
    pass_rate := if 0 < total_elements then
        (passed_elements : ℚ) / (total_elements : ℚ) * 100 else 0
    total_issues := all_issues.length
    issues_by_severity := issues_by_severity
    issues_by_category := issues_by_category
    critical_issues := (issues_by_severity.lookup "critical").getD 0
    high_issues := (issues_by_severity.lookup "high").getD 0 }

/-- Replace every absent field of a record by the safe default the rules
read through `Option.getD`: tag and text empty, attributes empty, selector
the sentinel, geometry zero, visibility true. -/
def fillDefaults (e : ElementRecord) : ElementRecord :=
  { tag_name := some (e.tag_name.getD "")
    attributes := some (e.attributes.getD [])
    text_content := some (e.text_content.getD "")
    css_selector := some (e.css_selector.getD "unknown")
    bounding_rect := some
      { x := some ((e.bounding_rect.getD {}).x.getD 0)
        y := some ((e.bounding_rect.getD {}).y.getD 0)
        width := some ((e.bounding_rect.getD {}).width.getD 0)
        height := some ((e.bounding_rect.getD {}).height.getD 0) }
    is_visible := some (e.is_visible.getD true) }

/-! Concrete records, configurations, and rule sets used to instantiate the
theorems below. -/

/-- The record of concrete scenario 1 of the spec: an image with an empty
attribute dictionary. -/
def imgRec : ElementRecord := { tag_name := some "img", attributes := some [] }

/-- A 20x20 button with text, small by the hard-coded 44px threshold but
large by a configured 10px threshold. -/
def btn2020 : ElementRecord :=
  { tag_name := some "button", text_content := some "ok",
    bounding_rect := some { width := some 20, height := some 20 } }

/-- A div with a non-blank inline style: triggers the performance group. -/
def styledDiv : ElementRecord :=
  { tag_name := some "div", attributes := some [("style", "color: red")] }

/-- A configuration that switches every rule-group flag off. -/
def cfgAllOff : Config :=
  { check_performance := false, check_usability := false,
    check_visual := false, check_security := false }

/-- A configuration with a 10px touch-target threshold. -/
def cfgTouch10 : Config := { minimum_touch_target := 10 }

/-- A rule that always raises (models an internal fault). -/
def badRule : Rule := fun _ => none

/-- A two-rule registry whose first rule always raises. -/
def rulesFaulty : List (String × Rule) :=
  [("bad", badRule), ("good", fun e => some (check_images e))]

/-- A one-rule registry used together with an unregistered request name. -/
def rulesOne : List (String × Rule) :=
  [("good2", fun e => some (check_links e))]

end UIValidator

namespace UIValidator

/-! Helper lemmas about the evaluation loop and the counter dictionaries. -/

/-- The executed-checks list is always a sublist of the requested list. -/
theorem runChecks_snd_sublist (rules : List (String × Rule)) (checks : List String)
    (e : ElementRecord) : (runChecks rules checks e).2.Sublist checks := by
  induction checks with
  | nil => exact List.Sublist.refl _
  | cons name rest ih =>
    cases h1 : rules.lookup name with
    | none =>
      simp only [runChecks, h1]
      exact List.Sublist.cons name ih
    | some rule =>
      cases h2 : rule e with
      | none =>
        simp only [runChecks, h1, h2]
        exact List.Sublist.cons name ih
      | some check_issues =>
        cases h3 : runChecks rules rest e with
        | mk fst snd =>
          simp only [runChecks, h1, h2, h3]
          have hsnd : snd.Sublist rest := by rw [h3] at ih; exact ih
          exact List.Sublist.cons₂ name hsnd

/-- A successful lookup comes from some entry of the association list. -/
theorem lookup_mem {β : Type} (l : List (String × β)) (k : String) (v : β)
    (h : l.lookup k = some v) : ∃ k₂, (k₂, v) ∈ l := by
  induction l with
  | nil => simp [List.lookup] at h
  | cons p rest ih =>
    cases p with
    | mk a b =>
      rw [List.lookup] at h
      by_cases hk : (k == a) = true
      · rw [hk] at h
        exact ⟨a, by simp at h; simp [h]⟩
      · rw [Bool.not_eq_true] at hk
        rw [hk] at h
        obtain ⟨k₂, hmem⟩ := ih h
        exact ⟨k₂, List.mem_cons_of_mem _ hmem⟩

/-- If every registered rule agrees on two records, the loop agrees. -/
theorem runChecks_congr (rules : List (String × Rule)) (checks : List String)
    (e₁ e₂ : ElementRecord)
    (h : ∀ k f, rules.lookup k = some f → f e₁ = f e₂) :
    runChecks rules checks e₁ = runChecks rules checks e₂ := by
  induction checks with
  | nil => rfl
  | cons name rest ih =>
    cases hl : rules.lookup name with
    | none => simp only [runChecks, hl]; exact ih
    | some f =>
      simp only [runChecks, hl, h name f hl]
      cases f e₂ with
      | none => exact ih
      | some check_issues => rw [ih]

/-- `dictIncr` adds exactly one to the total of the counter dictionary. -/
theorem sumValues_dictIncr (d : List (String × Nat)) (k : String) :
    sumValues (dictIncr d k) = sumValues d + 1 := by
  induction d with
  | nil => rfl
  | cons p rest ih =>
    cases p with
    | mk k₂ v =>
      by_cases h : k₂ = k
      · simp [dictIncr, h, sumValues]
        ring
      · simp [dictIncr, h, sumValues] at ih ⊢
        omega

/-- Folding `dictIncr` over a list adds its length to the total. -/
theorem sumValues_foldl_dictIncr {α : Type} (f : α → String) (l : List α)
    (init : List (String × Nat)) :
    sumValues (l.foldl (fun d i => dictIncr d (f i)) init) = sumValues init + l.length := by
  induction l generalizing init with
  | nil => simp
  | cons a rest ih =>
    simp only [List.foldl_cons, List.length_cons, ih, sumValues_dictIncr]
    omega

/-- Each executed check names a registered rule that returned normally. -/
theorem mem_runChecks_snd (rules : List (String × Rule)) (S : List String)
    (e : ElementRecord) :
    ∀ n, n ∈ (runChecks rules S e).2 → ∃ f, rules.lookup n = some f ∧ f e ≠ none := by
  induction S with
  | nil => intro n hn; simp [runChecks] at hn
  | cons c rest ih =>
    intro n hn
    cases hl : rules.lookup c with
    | none =>
      simp only [runChecks, hl] at hn
      exact ih n hn
    | some g =>
      cases hg : g e with
      | none =>
        simp only [runChecks, hl, hg] at hn
        exact ih n hn
      | some check_issues =>
        cases h3 : runChecks rules rest e with
        | mk fst snd =>
          simp only [runChecks, hl, hg, h3] at hn
          rcases List.mem_cons.mp hn with h | h
          · subst h
            exact ⟨g, hl, by simp [hg]⟩
          · exact ih n (by rw [h3]; exact h)

/-- Names absent from the registry can be dropped from the request without
changing the outcome. -/
theorem runChecks_filter_registered (rules : List (String × Rule)) (S : List String)
    (e : ElementRecord) :
    runChecks rules S e =
      runChecks rules (S.filter (fun n => (rules.lookup n).isSome)) e := by
  induction S with
  | nil => rfl
  | cons c rest ih =>
    cases hl : rules.lookup c with
    | none =>
      have h1 : List.filter (fun n => (rules.lookup n).isSome) (c :: rest) =
          List.filter (fun n => (rules.lookup n).isSome) rest := by
        simp [List.filter_cons, hl]
      rw [h1]
      simp only [runChecks, hl]
      exact ih
    | some g =>
      have h1 : List.filter (fun n => (rules.lookup n).isSome) (c :: rest) =
          c :: List.filter (fun n => (rules.lookup n).isSome) rest := by
        simp [List.filter_cons, hl]
      rw [h1]
      cases hg : g e with
      | none => simp only [runChecks, hl, hg]; exact ih
      | some check_issues => simp only [runChecks, hl, hg]; rw [ih]

/-- C1: for every element record and every rule set, the ValidationResult
returned by validate_element has passed = true if and only if the list of
issues it contains has zero issues whose severity is critical or high;
issues of severity medium, low, or info never make passed false. -/
theorem validate_element_passed_iff_no_critical_high
    (rules : List (String × Rule)) (e : ElementRecord) (checks : Option (List String)) :
    (validateElementWith rules e checks).passed = true ↔
      ∀ i ∈ (validateElementWith rules e checks).issues,
        i.severity ≠ ValidationSeverity.critical ∧ i.severity ≠ ValidationSeverity.high := by
  simp only [validateElementWith, beq_iff_eq, List.length_eq_zero, List.filter_eq_nil_iff]
  constructor
  · intro h i hi
    have := h i hi
    simp at this
    exact this
  · intro h i hi
    have := h i hi
    simp [this.1, this.2]

/-- C1 witness: a record on which no rule reports anything passes. -/
theorem validate_element_passed_iff_no_critical_high_witness :
    (validateElementWith loadValidationRules {} none).passed = true :=
  (validate_element_passed_iff_no_critical_high loadValidationRules {} none).mpr (by decide)

/-- C6: the summary aggregator on the empty result list returns an
all-zero summary with pass rate exactly 0 and empty severity and category
histograms. -/
theorem summary_of_empty_all_zero :
    get_validation_summary [] =
      { total_elements := 0, passed_elements := 0, failed_elements := 0, pass_rate := 0,
        total_issues := 0, issues_by_severity := [], issues_by_category := [],
        critical_issues := 0, high_issues := 0 } := rfl

/-- C7: for every list of validation results, total_elements is the input
length, passed + failed = total, and total_issues equals the sum of the
severity histogram and the sum of the category histogram. -/
theorem summary_counts_consistent (results : List ValidationResult) :
    (get_validation_summary results).total_elements = results.length ∧
      (get_validation_summary results).passed_elements +
        (get_validation_summary results).failed_elements = results.length ∧
      (get_validation_summary results).total_issues =
        sumValues (get_validation_summary results).issues_by_severity ∧
      (get_validation_summary results).total_issues =
        sumValues (get_validation_summary results).issues_by_category := by
  refine ⟨rfl, ?_, ?_, ?_⟩
  · have h := List.length_filter_le (fun r : ValidationResult => r.passed) results
    simp only [get_validation_summary]
    omega
  · simp only [get_validation_summary, sumValues_foldl_dictIncr]
    simp [sumValues]
  · simp only [get_validation_summary, sumValues_foldl_dictIncr]
    simp [sumValues]

/-- C2: a rule that raises during validate_element contributes zero issues,
is excluded from checks_performed, and does not abort the evaluation of the
other requested rules: the run is the same as if every request of that rule
were deleted, and the fault never propagates (the loop is total). -/
theorem faulting_rule_isolated (rules : List (String × Rule)) (checks : List String)
    (e : ElementRecord) (name : String) (f : Rule)
    (hlook : rules.lookup name = some f) (hfault : f e = none) :
    runChecks rules checks e = runChecks rules (checks.filter (fun c => c != name)) e ∧
      name ∉ (runChecks rules checks e).2 := by
  have hfil : ∀ cs : List String,
      runChecks rules cs e = runChecks rules (cs.filter (fun c => c != name)) e := by
    intro cs
    induction cs with
    | nil => rfl
    | cons c rest ih =>
      by_cases hc : c = name
      · have h1 : List.filter (fun x => x != name) (c :: rest) =
            List.filter (fun x => x != name) rest := by
          simp [List.filter_cons, hc]
        rw [h1, hc]
        simp only [runChecks, hlook, hfault]
        exact ih
      · have h1 : List.filter (fun c => c != name) (c :: rest) =
            c :: List.filter (fun c => c != name) rest := by
          simp [List.filter_cons, hc]
        rw [h1]
        cases hl : rules.lookup c with
        | none => simp only [runChecks, hl]; exact ih
        | some g =>
          cases hg : g e with
          | none => simp only [runChecks, hl, hg]; exact ih
          | some check_issues => simp only [runChecks, hl, hg]; rw [ih]
  refine ⟨hfil checks, ?_⟩
  rw [hfil checks]
  intro hmem
  have hin : name ∈ checks.filter (fun c => c != name) :=
    (runChecks_snd_sublist rules (checks.filter (fun c => c != name)) e).subset hmem
  simp [List.mem_filter] at hin

/-- C2 witness: a registry whose first rule always raises, requested
together with a healthy rule. -/
theorem faulting_rule_isolated_witness :
    (runChecks rulesFaulty ["bad", "good"] {} =
        runChecks rulesFaulty ((["bad", "good"]).filter (fun c => c != "bad")) {}) ∧
      "bad" ∉ (runChecks rulesFaulty ["bad", "good"] {}).2 :=
  faulting_rule_isolated rulesFaulty ["bad", "good"] {} "bad" badRule rfl rfl

/-- C8: every requested name not in the registry is silently skipped (the
run equals the run on the request restricted to registered names), and
checks_performed only lists requested, registered rules that returned
normally. -/
theorem unregistered_requests_skipped (rules : List (String × Rule)) (S : List String)
    (e : ElementRecord) :
    (∀ n ∈ (runChecks rules S e).2,
        n ∈ S ∧ ∃ f, rules.lookup n = some f ∧ f e ≠ none) ∧
      runChecks rules S e =
        runChecks rules (S.filter (fun n => (rules.lookup n).isSome)) e :=
  ⟨fun n hn => ⟨(runChecks_snd_sublist rules S e).subset hn, mem_runChecks_snd rules S e n hn⟩,
   runChecks_filter_registered rules S e⟩

/-- C8 witness: a one-rule registry requested together with an unregistered
name. -/
theorem unregistered_requests_skipped_witness :
    ("good2" ∈ ["good2", "nope"] ∧
        ∃ f, rulesOne.lookup "good2" = some f ∧ f {} ≠ none) ∧
      runChecks rulesOne ["good2", "nope"] {} =
        runChecks rulesOne ((["good2", "nope"]).filter (fun n => (rulesOne.lookup n).isSome)) {} :=
  ⟨(unregistered_requests_skipped rulesOne ["good2", "nope"] {}).1 "good2" (by decide),
   (unregistered_requests_skipped rulesOne ["good2", "nope"] {}).2⟩

/-- C9 counterexample: requesting the registered rule name performance
twice makes it appear twice in checks_performed, refuting the claim for
request lists with repeated names. -/
theorem duplicate_request_repeats_in_checks_performed :
    ((ElementValidator.init none).validate_element {}
        (some ["performance", "performance"])).checks_performed =
        ["performance", "performance"] ∧
      ¬(((ElementValidator.init none).validate_element {}
          (some ["performance", "performance"])).checks_performed.count "performance" ≤ 1) := by
  decide

/-- C9 amended: checks_performed is always a sublist of the requested list,
so whenever the requested list has no duplicate names (in particular the
default registry-order list), every rule identifier appears at most once. -/
theorem checks_performed_sublist_nodup (rules : List (String × Rule)) (S : List String)
    (e : ElementRecord) (h : S.Nodup) :
    (runChecks rules S e).2.Sublist S ∧ (runChecks rules S e).2.Nodup :=
  ⟨runChecks_snd_sublist rules S e,
   (runChecks_snd_sublist rules S e).nodup h⟩

/-- C9 witness: a duplicate-free request list. -/
theorem checks_performed_sublist_nodup_witness :
    (runChecks loadValidationRules ["performance", "image_validation"] imgRec).2.Sublist
        ["performance", "image_validation"] ∧
      (runChecks loadValidationRules ["performance", "image_validation"] imgRec).2.Nodup :=
  checks_performed_sublist_nodup loadValidationRules ["performance", "image_validation"]
    imgRec (by decide)

/-- C3 counterexample: with every group flag false, the default run still
executes the performance rule and still reports a performance issue, so the
flags do not exclude any rule group. -/
theorem disabled_flags_still_run_groups :
    "performance" ∈
        ((ElementValidator.init (some cfgAllOff)).validate_element styledDiv none).checks_performed ∧
      ∃ i ∈ ((ElementValidator.init (some cfgAllOff)).validate_element styledDiv none).issues,
        i.issue_type = "inline_styles" := by
  decide

/-- C3 amended: _load_validation_rules never consults the configuration, so
validate_element with rule names omitted runs all nine registered rules
regardless of the check_performance / check_usability / check_visual /
check_security flags. -/
theorem default_checks_ignore_config_flags (cfg : Config) (e : ElementRecord) :
    ((ElementValidator.init (some cfg)).validate_element e none).checks_performed =
      loadValidationRules.map (fun p => p.1) := rfl

/-- C4 counterexample: with minimum_touch_target configured to 10, a 20x20
button still gets a small_touch_target issue even though neither dimension
is below the configured threshold. -/
theorem touch_target_ignores_configured_minimum :
    (∃ i ∈ ((ElementValidator.init (some cfgTouch10)).validate_element btn2020 none).issues,
        i.issue_type = "small_touch_target") ∧
      ¬((20 : Int) < cfgTouch10.minimum_touch_target ∨
          (20 : Int) < cfgTouch10.minimum_touch_target) := by
  decide

/-- C4 amended: whatever the configuration, the registry is unchanged and
small_touch_target is emitted exactly when the tag is interactive and the
bounding width or height is below the hard-coded 44, not the configured
minimum_touch_target. -/
theorem small_touch_target_hardcoded_44 (cfg : Config) (e : ElementRecord) :
    (ElementValidator.init (some cfg)).validation_rules = loadValidationRules ∧
      ((∃ i ∈ check_interactive_elements e, i.issue_type = "small_touch_target") ↔
        (strToLower (e.tag_name.getD "") ∈ ["button", "a", "input", "select", "textarea"] ∧
          ((e.bounding_rect.getD {}).width.getD 0 < 44 ∨
            (e.bounding_rect.getD {}).height.getD 0 < 44))) := by
  refine ⟨rfl, ?_⟩
  simp only [check_interactive_elements]
  split
  case isTrue h =>
    split
    case isTrue h2 => simp [h, h2]
    case isFalse h2 => simp [h, h2]
  case isFalse h => simp [h]

/-- C4 amended witness: the 20x20 button under the 10px configuration. -/
theorem small_touch_target_hardcoded_44_witness :
    (ElementValidator.init (some cfgTouch10)).validation_rules = loadValidationRules ∧
      ((∃ i ∈ check_interactive_elements btn2020, i.issue_type = "small_touch_target") ↔
        (strToLower (btn2020.tag_name.getD "") ∈ ["button", "a", "input", "select", "textarea"] ∧
          ((btn2020.bounding_rect.getD {}).width.getD 0 < 44 ∨
            (btn2020.bounding_rect.getD {}).height.getD 0 < 44))) :=
  small_touch_target_hardcoded_44 cfgTouch10 btn2020

/-- C5 counterexample: the bare image record yields three issues under the
default rule set, not exactly one. -/
theorem img_scenario_not_one_issue :
    ((ElementValidator.init none).validate_element imgRec none).issues.length = 3 ∧
      ((ElementValidator.init none).validate_element imgRec none).issues.length ≠ 1 := by
  decide

/-- C5 amended: the bare image record yields exactly three issues, in order
missing_alt_text (high, accessibility), missing_loading_attribute (low,
performance), missing_image_dimensions (low, performance) — so exactly one
of them is the missing_alt_text issue — and the result has passed = false. -/
theorem img_scenario_exact_issues :
    ((ElementValidator.init none).validate_element imgRec none).issues.map
        (fun i => (i.issue_type, i.severity, i.category)) =
      [("missing_alt_text", ValidationSeverity.high, ValidationCategory.accessibility),
       ("missing_loading_attribute", ValidationSeverity.low, ValidationCategory.performance),
       ("missing_image_dimensions", ValidationSeverity.low, ValidationCategory.performance)] ∧
      (((ElementValidator.init none).validate_element imgRec none).issues.filter
        (fun i => i.issue_type == "missing_alt_text")).length = 1 ∧
      ((ElementValidator.init none).validate_element imgRec none).passed = false := by
  decide

/-- C10: validate_element is total on every record, however many fields are
absent: every validation-relevant component of the result (issues,
checks_performed, passed, element_selector) is the same as on the record
with the safe defaults filled in (tag and text empty, attributes empty,
geometry zero, visible true), and every registered rule returns normally on
the record, so no fault escapes the call. -/
theorem validate_element_missing_fields_defaults (e : ElementRecord)
    (checks : Option (List String)) :
    ((ElementValidator.init none).validate_element e checks).issues =
        ((ElementValidator.init none).validate_element (fillDefaults e) checks).issues ∧
      ((ElementValidator.init none).validate_element e checks).checks_performed =
        ((ElementValidator.init none).validate_element (fillDefaults e) checks).checks_performed ∧
      ((ElementValidator.init none).validate_element e checks).passed =
        ((ElementValidator.init none).validate_element (fillDefaults e) checks).passed ∧
      ((ElementValidator.init none).validate_element e checks).element_selector =
        ((ElementValidator.init none).validate_element (fillDefaults e) checks).element_selector ∧
      ∀ n ∈ loadValidationRules.map (fun p => p.1),
        ∃ f, loadValidationRules.lookup n = some f ∧ f e ≠ none := by
  have hrun : ∀ cs : List String,
      runChecks loadValidationRules cs (fillDefaults e) = runChecks loadValidationRules cs e := by
    intro cs
    apply runChecks_congr
    intro k f hl
    obtain ⟨k₂, hmem⟩ := lookup_mem _ _ _ hl
    simp only [loadValidationRules, List.mem_cons, Prod.mk.injEq, List.not_mem_nil,
      or_false] at hmem
    rcases hmem with h | h | h | h | h | h | h | h | h <;> rw [h.2] <;> rfl
  refine ⟨?_, ?_, ?_, rfl, ?_⟩
  · simp only [ElementValidator.validate_element, ElementValidator.init, validateElementWith,
      hrun]
  · simp only [ElementValidator.validate_element, ElementValidator.init, validateElementWith,
      hrun]
  · simp only [ElementValidator.validate_element, ElementValidator.init, validateElementWith,
      hrun]
  · intro n hn
    simp only [loadValidationRules, List.map_cons, List.map_nil, List.mem_cons,
      List.not_mem_nil, or_false] at hn
    rcases hn with rfl | rfl | rfl | rfl | rfl | rfl | rfl | rfl | rfl <;>
      exact ⟨_, rfl, by simp⟩

/-- C10 witness: a record with only a tag, validated with the default rule
set. -/
theorem validate_element_missing_fields_defaults_witness :
    ∃ f, loadValidationRules.lookup "accessibility_basic" = some f ∧
      f { tag_name := some "img" } ≠ none :=
  (validate_element_missing_fields_defaults { tag_name := some "img" } none).2.2.2.2
    "accessibility_basic" (by decide)

end UIValidator
